import Mathlib

/-!
Verification of `tools/build/build.py` (MixedReality-WebRTC build orchestrator).

The script is shallowly embedded as pure Lean functions. Side effects
(console prints, directory creation, file writes, external commands,
environment-variable assignments, the interactive prompt) are reified as an
`Event` trace; process termination (`sys.exit`) and the uncaught Python
`NameError` are reified in a `Halt` type. External command exit statuses are
an oracle `env : String → Int` mapping each command line to its status.

Path handling (`os.path.realpath` / `os.path.join`) is modelled as plain
string concatenation with `/` separators; ANSI color codes, the `colored`
helper and the quoting of interpolated values inside display messages are
elided, as is `ensure_depot_tools` (pure PATH plumbing): no claim depends on
them. The `Building MixedReality-WebRTC targets/cpus/configs` summary print
of `Build.__init__` (which joins Python `set`s, whose iteration order is
unspecified) is likewise elided from the trace as display-only.
-/

/-- One (target, cpu, config) combination, as built by `BuildTriple.__init__`
(build.py lines 44-49). The constructor also stores
`is_debug = (config == 'debug')`; that derived field is `BuildTriple.is_debug`
below. -/
structure BuildTriple where
  target : String
  cpu : String
  config : String
deriving DecidableEq, Repr

/-- Derived field `self.is_debug = (config == 'debug')` of `BuildTriple.__init__`. -/
def BuildTriple.is_debug (t : BuildTriple) : Bool :=
  t.config == "debug"

/-- `BuildTriple.__str__`: `"%s-%s-%s" % (target, cpu, config)`. -/
def BuildTriple.str (t : BuildTriple) : String :=
  t.target ++ "-" ++ t.cpu ++ "-" ++ t.config

/-- `Build.TARGETS` (build.py line 55). -/
def TARGETS : List String := ["android", "win", "winuwp"]

/-- `Build.CPUS` (build.py line 56). -/
def CPUS : List String := ["x86", "x64", "arm", "arm64"]

/-- `Build.CONFIGS` (build.py line 57). -/
def CONFIGS : List String := ["debug", "release"]

/-- `Build.ensure_valid_platform` (build.py lines 89-100): raising an
exception is modelled as `Except.error` carrying `ex.args[0]`. The message
strings of the first three rules are Python string literals WITHOUT an `f`
prefix, so the `\x7b...\x7d` placeholders are literal text, not interpolation. -/
def Build.ensure_valid_platform (target cpu config : String) : Except String Unit :=
  if target ∉ TARGETS then
    Except.error "Invalid platform target \x7btarget\x7d"
  else if cpu ∉ CPUS then
    Except.error "Invalid CPU architecture \x7bcpu\x7d"
  else if config ∉ CONFIGS then
    Except.error "Invalid build configuration \x7bconfig\x7d"
  else if target = "android" ∧ cpu ≠ "arm64" then
    Except.error "Android target only supports ARM64 architecture (-c arm64)."
  else if target = "win" ∧ cpu ∉ (["x86", "x64"] : List String) then
    Except.error "Windows Desktop target only supports x86 and x64 architectures (-c [x86|x64])."
  else
    Except.ok ()

/-- The cross-product comprehension of `Build.__init__` (build.py line 62):
`[BuildTriple(t, c, cfg) for t in targets for c in cpus for cfg in configs]`,
i.e. target-major, then cpu, then config. -/
def crossTriples (targets cpus configs : List String) : List BuildTriple :=
  targets.flatMap (fun t => cpus.flatMap (fun c => configs.map (fun cfg => ⟨t, c, cfg⟩)))

/-- The classification loop of `Build.__init__` (build.py lines 63-71):
each triple is appended to `build_triples` when `ensure_valid_platform`
passes, otherwise to `ignored_triples` together with the exception message. -/
def partitionTriples : List BuildTriple → List BuildTriple × List (BuildTriple × String)
  | [] => ([], [])
  | tri :: rest =>
    let p := partitionTriples rest
    match Build.ensure_valid_platform tri.target tri.cpu tri.config with
    | Except.ok _ => (tri :: p.1, p.2)
    | Except.error msg => (p.1, (tri, msg) :: p.2)

/-- Boolean form of `ensure_valid_platform` succeeding. -/
def validTriple (tri : BuildTriple) : Bool :=
  (Build.ensure_valid_platform tri.target tri.cpu tri.config).isOk

/-- Observable side effects of the script, in program order. -/
inductive Event where
  | print (s : String)
  | printWarning (s : String)
  | printStep (s : String)
  | run (cmd : String) (cwd : Option String)
  | makedirs (dir : String)
  | writeFile (path : String) (content : String)
  | prompt (msg : String)
  | setEnv (key value : String)
deriving DecidableEq, Repr

/-- Process termination: `sys.exit(code)` (uncaught, since `SystemExit` does
not derive from `Exception`), or an uncaught-in-`Build` Python `NameError`
(which `main` later converts to a usage error, exit code 2). -/
inductive Halt where
  | exit (code : Int)
  | nameError (name : String)
deriving DecidableEq, Repr

/-- `run_command` (build.py lines 37-42): print the command, invoke it, and
`sys.exit(ret)` when the status `ret` is non-zero. `env` is the oracle giving
each command line its exit status. -/
def run_command (env : String → Int) (cmd : String) (cwd : Option String) :
    List Event × Except Halt Unit :=
  ([Event.run cmd cwd],
    if env cmd = 0 then Except.ok () else Except.error (Halt.exit (env cmd)))

/-- Filesystem state observable by the script: directory existence and file
contents. -/
structure FS where
  dirs : String → Bool
  files : String → Option String

/-- Effect of one event on the filesystem: `makedirs` creates the directory,
`writeFile` (mode `w`) truncates and replaces the file content; every other
event leaves the filesystem unchanged. -/
def applyEvent (fs : FS) : Event → FS
  | Event.makedirs d => { fs with dirs := fun p => if p = d then true else fs.dirs p }
  | Event.writeFile p c => { fs with files := fun q => if q = p then some c else fs.files q }
  | _ => fs

def applyEvents (fs : FS) (evs : List Event) : FS :=
  evs.foldl applyEvent fs

/-- `self.webrtc_dir = realpath(join(root_dir, 'external/libwebrtc'))`
(build.py line 127), with path joining modelled as concatenation. -/
def webrtcDir (root : String) : String := root ++ "/external/libwebrtc"

/-- `self.webrtc_src_dir = realpath(join(webrtc_dir, 'src'))` (build.py line 129). -/
def webrtcSrcDir (root : String) : String := webrtcDir root ++ "/src"

/-- The names visible for a variable read inside `Build.checkout`
(build.py lines 102-120): the function's own assigned locals plus the
module-level bindings of build.py. There is no binding named `target`. -/
def checkoutScope : List String :=
  ["self", "fetch_target", "winrtc_dir", "patch_path",
   "colored", "cyan", "print_warning", "print_error", "print_step", "run_command",
   "BuildTriple", "Build", "ensure_depot_tools", "main",
   "OptionParser", "sys", "os", "subprocess"]

/-- Python name resolution for a free-variable read inside `Build.checkout`:
an unbound name raises `NameError`. The `String` payload of a successful
lookup is irrelevant here — the only lookup the script performs through this
function, of the name `target`, fails — and is a placeholder. -/
def nameLookup (n : String) : Except Halt String :=
  if n ∈ checkoutScope then Except.ok "" else Except.error (Halt.nameError n)

/-- `Build.checkout` (build.py lines 102-120): create the checkout
directory, then evaluate
`fetch_target = 'webrtc_android' if target == 'android' else 'webrtc'`.
The name `target` is not a parameter of `checkout`, is never assigned in its
body, and has no module-level binding (see `checkoutScope`), so this read
raises `NameError` before the fetch; the remaining steps (fetch, gclient
sync, UWP patch) are kept to document what the source would run next. -/
def Build.checkout (env : String → Int) (root : String) : List Event × Except Halt Unit :=
  let wdir := webrtcDir root
  let ev0 := [Event.makedirs wdir]
  match nameLookup "target" with
  | Except.error h => (ev0, Except.error h)
  | Except.ok target =>
    let fetch_target := if target == "android" then "webrtc_android" else "webrtc"
    let r1 := run_command env ("fetch --nohooks " ++ fetch_target) (some wdir)
    match r1.2 with
    | Except.error h => (ev0 ++ r1.1, Except.error h)
    | Except.ok _ =>
      let r2 := run_command env "gclient sync -D -r branch-heads/4147" (some wdir)
      match r2.2 with
      | Except.error h => (ev0 ++ r1.1 ++ r2.1, Except.error h)
      | Except.ok _ =>
        let winrtc_dir := root ++ "/external/winrtc"
        let patch_path := winrtc_dir ++ "/patches_for_WebRTC_org/m84"
        let ev3 := [Event.print "Applying UWP patches from WinRTC repository",
                    Event.setEnv "WEBRTCM84_ROOT" (webrtcSrcDir root),
                    Event.print ("WinRTC root path : " ++ winrtc_dir),
                    Event.print ("WinRTC patch path : " ++ patch_path)]
        let r4 := run_command env "patchWebRTCM84.cmd" (some patch_path)
        (ev0 ++ r1.1 ++ r2.1 ++ ev3 ++ r4.1, r4.2)

/-- The informational message printed by `Build.build` when the checkout
directory already exists (build.py line 143), quoting elided. -/
def reuseMsg (root : String) : String :=
  "Reusing existing checkout. Delete the " ++ webrtcDir root ++
    " folder to force a clean checkout."

/-- The checkout guard of `Build.build` (build.py lines 139-143):
`has_checkout = os.path.exists(self.webrtc_dir)`; when the directory exists
only the informational message is printed, otherwise `self.checkout()` runs. -/
def Build.checkoutPhase (env : String → Int) (root : String) (hasCheckout : Bool) :
    List Event × Except Halt Unit :=
  if hasCheckout then ([Event.print (reuseMsg root)], Except.ok ())
  else Build.checkout env root

/-- `out/%s/%s/%s` relative output directory of `Build.build_variant`
(build.py line 152). -/
def outDirRel (tri : BuildTriple) : String :=
  "out/" ++ tri.target ++ "/" ++ tri.cpu ++ "/" ++ tri.config

/-- Absolute output directory of `Build.build_variant` (build.py line 153). -/
def outDir (root : String) (tri : BuildTriple) : String :=
  webrtcSrcDir root ++ "/" ++ outDirRel tri

/-- The `build_options` dict of `Build.build_variant` (build.py lines
159-172), in insertion order (Python dicts preserve it). -/
def build_options (tri : BuildTriple) : List (String × String) :=
  [("is_debug", if tri.is_debug then "true" else "false"),
   ("use_lld", "false"),
   ("is_clang", "false"),
   ("rtc_include_tests", "false"),
   ("rtc_build_examples", "false"),
   ("rtc_build_tools", "false"),
   ("rtc_win_video_capture_winrt", "true"),
   ("rtc_win_use_mf_h264", "true"),
   ("enable_libaom", "true"),
   ("rtc_enable_protobuf", "false"),
   ("target_os", "\"" ++ tri.target ++ "\""),
   ("target_cpu", "\"" ++ tri.cpu ++ "\"")]

/-- `'\n'.join("%s=%s" % (k, v) for k, v in build_options.items())`
(build.py line 174) — the exact text written to `args.gn`. -/
def argsGnContent (tri : BuildTriple) : String :=
  String.intercalate "\n" ((build_options tri).map (fun kv => kv.1 ++ "=" ++ kv.2))

/-- `Build.build_variant` (build.py lines 150-179): print the step, create
the output directory if absent, write `args.gn` (mode `w`, unconditional
overwrite), then run `gn gen` and `ninja`. -/
def Build.build_variant (env : String → Int) (root : String) (fs : FS) (tri : BuildTriple) :
    List Event × Except Halt Unit :=
  let rel := outDirRel tri
  let odir := outDir root tri
  let ev0 := [Event.printStep ("Building variant " ++ tri.str ++ " to " ++ rel)]
  let ev1 := if fs.dirs odir then [] else [Event.makedirs odir]
  let ev2 := [Event.writeFile (odir ++ "/args.gn") (argsGnContent tri)]
  let r3 := run_command env ("gn gen " ++ rel ++ " --filters=//:webrtc") (some (webrtcSrcDir root))
  match r3.2 with
  | Except.error h => (ev0 ++ ev1 ++ ev2 ++ r3.1, Except.error h)
  | Except.ok _ =>
    let r4 := run_command env ("ninja -C " ++ rel) (some (webrtcSrcDir root))
    (ev0 ++ ev1 ++ ev2 ++ r3.1 ++ r4.1, r4.2)

/-- The per-variant loop of `Build.build` (build.py lines 146-147),
threading the filesystem effects of each variant into the next. -/
def Build.buildAll (env : String → Int) (root : String) (fs : FS) :
    List BuildTriple → List Event × Except Halt Unit
  | [] => ([], Except.ok ())
  | tri :: rest =>
    let r := Build.build_variant env root fs tri
    match r.2 with
    | Except.error h => (r.1, Except.error h)
    | Except.ok _ =>
      let r2 := Build.buildAll env root (applyEvents fs r.1) rest
      (r.1 ++ r2.1, r2.2)

/-- `Build.build` (build.py lines 122-147): configure the environment,
run the checkout phase guarded by directory existence, then build every
accepted variant in order. (Path prints and `ensure_depot_tools` elided.) -/
def Build.build (env : String → Int) (root : String) (fs : FS) (triples : List BuildTriple) :
    List Event × Except Halt Unit :=
  let ev0 := [Event.setEnv "DEPOT_TOOLS_WIN_TOOLCHAIN" "0",
              Event.setEnv "GYP_MSVS_VERSION" "2019"]
  let r1 := Build.checkoutPhase env root (fs.dirs (webrtcDir root))
  match r1.2 with
  | Except.error h => (ev0 ++ r1.1, Except.error h)
  | Except.ok _ =>
    let r2 := Build.buildAll env root (applyEvents fs (ev0 ++ r1.1)) triples
    (ev0 ++ r1.1 ++ r2.1, r2.2)

/-- Python `str.lower()` as used on the prompt answer (build.py line 84),
modelled character-wise (faithful for the ASCII answers the prompt compares
against). -/
def pyLower (s : String) : String :=
  ⟨s.data.map Char.toLower⟩

/-- `Build.__init__` (build.py lines 60-87): enumerate and classify the
cross-product, report the variant count and the accepted/ignored variants,
and — when not quiet and at least two variants were accepted — block on the
confirmation prompt, exiting with status 0 on a (lowercased) `n` answer.
Returns the accepted `build_triples`. -/
def Build.init (targets cpus configs : List String) (quiet : Bool) (userInput : String) :
    List Event × Except Halt (List BuildTriple) :=
  let p := partitionTriples (crossTriples targets cpus configs)
  let num_variants := p.1.length
  let evs := [Event.print ("Building " ++ toString num_variants ++ " variants:")]
      ++ p.1.map (fun tri => Event.print ("- " ++ tri.str))
      ++ p.2.map (fun pr =>
          Event.printWarning ("Ignoring unsupported variant " ++ pr.1.str ++ ": " ++ pr.2))
  if (!quiet && decide (2 ≤ num_variants)) then
    let evs := evs ++ [Event.prompt ("Start building " ++ toString num_variants ++
        " variants (this may take some time)? [Y/n] ")]
    if pyLower userInput == "n" then
      (evs ++ [Event.print "Aborted by user."], Except.error (Halt.exit 0))
    else (evs, Except.ok p.1)
  else (evs, Except.ok p.1)

/-- One whole run at the `Build` level: `Build(targets, cpus, configs, quiet)`
followed by `b.build()` (build.py lines 228-229). -/
def buildRun (targets cpus configs : List String) (quiet : Bool) (userInput : String)
    (env : String → Int) (root : String) (fs : FS) : List Event × Except Halt Unit :=
  let r0 := Build.init targets cpus configs quiet userInput
  match r0.2 with
  | Except.error h => (r0.1, Except.error h)
  | Except.ok acc =>
    let r1 := Build.build env root (applyEvents fs r0.1) acc
    (r0.1 ++ r1.1, r1.2)

/-- The process exit code resulting from a run outcome: normal completion of
`main` exits 0; `sys.exit(c)` raises `SystemExit`, which `except Exception`
does not catch, so the process exits with `c`; a Python exception such as
`NameError` is caught by `main` (build.py lines 230-233) and routed through
`parser.error`, which exits 2. -/
def mainExitCode (r : Except Halt Unit) : Int :=
  match r with
  | Except.ok _ => 0
  | Except.error (Halt.exit c) => c
  | Except.error (Halt.nameError _) => 2

/-- The configs list built by `main` (build.py lines 223-227): append
`debug` when the debug flag is set, append `release` when the release flag
is set or the debug flag is not. -/
def configsFromFlags (debug release : Bool) : List String :=
  let configs : List String := []
  let configs := if debug then configs ++ ["debug"] else configs
  let configs := if release || !debug then configs ++ ["release"] else configs
  configs

/-! ## Partition lemmas (Build.__init__ classification loop) -/

theorem partitionTriples_fst (l : List BuildTriple) :
    (partitionTriples l).1 = l.filter validTriple := by
  induction l with
  | nil => rfl
  | cons tri rest ih =>
    cases h : Build.ensure_valid_platform tri.target tri.cpu tri.config with
    | ok u => simp [partitionTriples, h, List.filter_cons, validTriple, Except.isOk, Except.toBool, ih]
    | error m => simp [partitionTriples, h, List.filter_cons, validTriple, Except.isOk, Except.toBool, ih]

theorem partitionTriples_snd_fst (l : List BuildTriple) :
    ((partitionTriples l).2.map Prod.fst) = l.filter (fun tri => !(validTriple tri)) := by
  induction l with
  | nil => rfl
  | cons tri rest ih =>
    cases h : Build.ensure_valid_platform tri.target tri.cpu tri.config with
    | ok u => simp [partitionTriples, h, List.filter_cons, validTriple, Except.isOk, Except.toBool, ih]
    | error m => simp [partitionTriples, h, List.filter_cons, validTriple, Except.isOk, Except.toBool, ih]

theorem count_filter_add_count_filter_not {α : Type} [DecidableEq α]
    (p : α → Bool) (a : α) (l : List α) :
    (l.filter p).count a + (l.filter (fun x => !p x)).count a = l.count a := by
  induction l with
  | nil => rfl
  | cons b t ih =>
    by_cases hp : p b
    · simp [List.filter_cons, hp, List.count_cons, ih]
      omega
    · simp [List.filter_cons, hp, List.count_cons, ih]
      omega

/-- C1: every (target, cpu, config) triple of the requested cross-product
appears in exactly one of the two sequences produced by `Build.__init__`
(counted with multiplicity, accepted `build_triples` plus rejected
`ignored_triples` account exactly for the cross-product), and the accepted
sequence is the order-preserving subsequence of the target-major, then cpu,
then config enumeration `crossTriples`. -/
theorem build_init_partition_exact (targets cpus configs : List String) :
    (partitionTriples (crossTriples targets cpus configs)).1 =
      (crossTriples targets cpus configs).filter validTriple ∧
    (partitionTriples (crossTriples targets cpus configs)).1.Sublist
      (crossTriples targets cpus configs) ∧
    (∀ tri : BuildTriple,
      (partitionTriples (crossTriples targets cpus configs)).1.count tri +
        ((partitionTriples (crossTriples targets cpus configs)).2.map Prod.fst).count tri =
        (crossTriples targets cpus configs).count tri) := by
  refine ⟨partitionTriples_fst _, ?_, ?_⟩
  · rw [partitionTriples_fst]
    exact List.filter_sublist _
  · intro tri
    rw [partitionTriples_fst, partitionTriples_snd_fst]
    exact count_filter_add_count_filter_not validTriple tri _

/-- C2 (counterexample to the claim as stated): for the unknown target
`foo`, the rejection reason produced by `ensure_valid_platform` is the
literal string `Invalid platform target \x7btarget\x7d` — the Python source
lacks the f-string prefix, so the placeholder is not interpolated — which is
not the stated message `Invalid platform target`. -/
theorem ensure_valid_platform_message_counterexample :
    Build.ensure_valid_platform "foo" "x64" "release" =
      Except.error "Invalid platform target \x7btarget\x7d" ∧
    ("Invalid platform target \x7btarget\x7d" : String) ≠ "Invalid platform target" :=
  ⟨rfl, by decide⟩

/-- C2 (amended): `ensure_valid_platform` accepts a triple exactly when the
compatibility matrix allows it (android only with arm64, win only with
x86/x64, winuwp with any valid cpu, config in debug/release), and rejects
with the five rules evaluated in the stated precedence, the three
unknown-value messages carrying a literal uninterpolated `\x7b...\x7d`
placeholder exactly as in the source. -/
theorem ensure_valid_platform_matrix (target cpu config : String) :
    (Build.ensure_valid_platform target cpu config = Except.ok () ↔
      (target ∈ TARGETS ∧ cpu ∈ CPUS ∧ config ∈ CONFIGS ∧
        (target = "android" → cpu = "arm64") ∧
        (target = "win" → cpu = "x86" ∨ cpu = "x64"))) ∧
    (target ∉ TARGETS →
      Build.ensure_valid_platform target cpu config =
        Except.error "Invalid platform target \x7btarget\x7d") ∧
    (target ∈ TARGETS → cpu ∉ CPUS →
      Build.ensure_valid_platform target cpu config =
        Except.error "Invalid CPU architecture \x7bcpu\x7d") ∧
    (target ∈ TARGETS → cpu ∈ CPUS → config ∉ CONFIGS →
      Build.ensure_valid_platform target cpu config =
        Except.error "Invalid build configuration \x7bconfig\x7d") ∧
    (target = "android" → cpu ∈ CPUS → cpu ≠ "arm64" → config ∈ CONFIGS →
      Build.ensure_valid_platform target cpu config =
        Except.error "Android target only supports ARM64 architecture (-c arm64).") ∧
    (target = "win" → cpu ∈ CPUS → cpu ∉ (["x86", "x64"] : List String) → config ∈ CONFIGS →
      Build.ensure_valid_platform target cpu config =
        Except.error
          "Windows Desktop target only supports x86 and x64 architectures (-c [x86|x64]).") := by
  unfold Build.ensure_valid_platform
  by_cases h1 : target ∈ TARGETS
  · by_cases h2 : cpu ∈ CPUS
    · by_cases h3 : config ∈ CONFIGS
      · by_cases h4 : target = "android" ∧ cpu ≠ "arm64"
        · simp only [h1, h2, h3, h4, not_true_eq_false, if_false, if_true, not_false_eq_true,
            if_pos, if_neg]
          refine ⟨?_, ?_, ?_, ?_, ?_, ?_⟩ <;> simp_all
        · by_cases h5 : target = "win" ∧ cpu ∉ (["x86", "x64"] : List String)
          · simp only [h1, h2, h3, h4, h5]
            refine ⟨?_, ?_, ?_, ?_, ?_, ?_⟩ <;> simp_all
          · simp only [h1, h2, h3, h4, h5]
            refine ⟨?_, ?_, ?_, ?_, ?_, ?_⟩ <;> simp_all
            tauto
      · simp only [h1, h2, h3]
        refine ⟨?_, ?_, ?_, ?_, ?_, ?_⟩ <;> simp_all
    · simp only [h1, h2]
      refine ⟨?_, ?_, ?_, ?_, ?_, ?_⟩ <;> simp_all
  · simp only [h1]
    refine ⟨?_, ?_, ?_, ?_, ?_, ?_⟩ <;> simp_all [TARGETS]

/-- Witness for C2 at a concrete input: android with cpu x86 is rejected
with the android-specific message. -/
theorem ensure_valid_platform_matrix_witness :
    Build.ensure_valid_platform "android" "x86" "release" =
      Except.error "Android target only supports ARM64 architecture (-c arm64)." :=
  (ensure_valid_platform_matrix "android" "x86" "release").2.2.2.2.1
    rfl (by decide) (by decide) (by decide)

/-- C3: the configs list `main` passes to `Build` is `[debug]` when only the
debug flag is set, `[debug, release]` in that order when both flags are set,
and `[release]` when neither flag is set. -/
theorem configs_from_flags_cases :
    configsFromFlags true false = ["debug"] ∧
    configsFromFlags true true = ["debug", "release"] ∧
    configsFromFlags false false = ["release"] :=
  ⟨rfl, rfl, rfl⟩

/-! ## Checkout: the undefined-name failure and idempotence of the guard -/

theorem checkout_eq (env : String → Int) (root : String) :
    Build.checkout env root =
      ([Event.makedirs (webrtcDir root)], Except.error (Halt.nameError "target")) := rfl

/-- C6: what `Build.checkout` actually does on a fresh checkout — instead of
selecting the `webrtc_android` or `webrtc` bundle from the requested build
targets, line 107 of build.py reads the name `target`, which is not bound
anywhere in scope, so after creating the checkout directory the function
raises `NameError` and no fetch command (with either bundle) is ever run. -/
theorem checkout_name_error (env : String → Int) (root : String) :
    Build.checkout env root =
      ([Event.makedirs (webrtcDir root)], Except.error (Halt.nameError "target")) ∧
    (∀ cmd cwd, Event.run cmd cwd ∉ (Build.checkout env root).1) := by
  refine ⟨rfl, ?_⟩
  intro cmd cwd
  rw [show (Build.checkout env root).1 = [Event.makedirs (webrtcDir root)] from rfl]
  simp

/-- C5: the checkout step of `Build.build` is idempotent. If the first
invocation completes normally (which, given `checkout_eq`, can only happen
when the checkout directory already exists), the next invocation — run on
the filesystem left by the first — performs no external step (no `run`
event), creates no directory (no `makedirs` event), emits only the single
informational message, and leaves the filesystem unchanged. -/
theorem checkout_phase_idempotent (env env2 : String → Int) (root : String) (fs : FS)
    (evs : List Event)
    (hfirst : Build.checkoutPhase env root (fs.dirs (webrtcDir root)) = (evs, Except.ok ())) :
    Build.checkoutPhase env2 root ((applyEvents fs evs).dirs (webrtcDir root)) =
      ([Event.print (reuseMsg root)], Except.ok ()) ∧
    (∀ d, Event.makedirs d ∉ [Event.print (reuseMsg root)]) ∧
    (∀ cmd cwd, Event.run cmd cwd ∉ [Event.print (reuseMsg root)]) ∧
    applyEvents (applyEvents fs evs) [Event.print (reuseMsg root)] = applyEvents fs evs := by
  cases hdir : fs.dirs (webrtcDir root) with
  | false =>
    rw [hdir] at hfirst
    rw [show Build.checkoutPhase env root false = Build.checkout env root from rfl,
      checkout_eq] at hfirst
    exact absurd (congrArg Prod.snd hfirst) (by simp)
  | true =>
    rw [hdir] at hfirst
    have hevs : evs = [Event.print (reuseMsg root)] :=
      (congrArg Prod.fst hfirst).symm
    subst hevs
    have hfs : applyEvents fs [Event.print (reuseMsg root)] = fs := rfl
    rw [hfs, hdir]
    exact ⟨rfl, by simp, by simp, rfl⟩

/-- Witness for C5 at a concrete input: a filesystem where the checkout
directory exists. -/
theorem checkout_phase_idempotent_witness :
    Build.checkoutPhase (fun _ => 1) "/repo"
        ((applyEvents ⟨fun _ => true, fun _ => none⟩ [Event.print (reuseMsg "/repo")]).dirs
          (webrtcDir "/repo")) =
      ([Event.print (reuseMsg "/repo")], Except.ok ()) ∧
    (∀ d, Event.makedirs d ∉ [Event.print (reuseMsg "/repo")]) ∧
    (∀ cmd cwd, Event.run cmd cwd ∉ [Event.print (reuseMsg "/repo")]) ∧
    applyEvents (applyEvents ⟨fun _ => true, fun _ => none⟩ [Event.print (reuseMsg "/repo")])
        [Event.print (reuseMsg "/repo")] =
      applyEvents ⟨fun _ => true, fun _ => none⟩ [Event.print (reuseMsg "/repo")] :=
  checkout_phase_idempotent (fun _ => 0) (fun _ => 1) "/repo"
    ⟨fun _ => true, fun _ => none⟩ [Event.print (reuseMsg "/repo")] rfl

/-! ## Fail-fast command handling -/

/-- C7: a failing external command terminates the run at once with the same
exit status. `run_command` invokes the command exactly once (a single `run`
event, so no retry) and, on a non-zero status, halts with exactly that
status and emits nothing further; when a variant's build fails, the loop of
`Build.build` performs no step of the remaining variants; `sys.exit(c)`
escapes `main` uncaught, so the process exit code is the failing status, and
a run that completes — or is aborted at the confirmation prompt, which exits
via `sys.exit(0)` — exits with code 0. -/
theorem command_failure_fail_fast (env : String → Int) (cmd : String) (cwd : Option String)
    (root : String) (fs : FS) (tri : BuildTriple) (rest : List BuildTriple) (h : Halt)
    (c : Int) :
    (env cmd ≠ 0 →
      run_command env cmd cwd = ([Event.run cmd cwd], Except.error (Halt.exit (env cmd)))) ∧
    (env cmd = 0 → run_command env cmd cwd = ([Event.run cmd cwd], Except.ok ())) ∧
    ((Build.build_variant env root fs tri).2 = Except.error h →
      Build.buildAll env root fs (tri :: rest) =
        ((Build.build_variant env root fs tri).1, Except.error h)) ∧
    mainExitCode (Except.error (Halt.exit c)) = c ∧
    mainExitCode (Except.ok ()) = 0 := by
  refine ⟨?_, ?_, ?_, rfl, rfl⟩
  · intro hne
    simp [run_command, hne]
  · intro hz
    simp [run_command, hz]
  · intro herr
    simp only [Build.buildAll, herr]

/-- Witness for C7 at a concrete input: a command whose status is 7 halts
the run with exit status 7 after its single invocation. -/
theorem command_failure_fail_fast_witness :
    run_command (fun _ => (7 : Int)) "gn gen out --filters=//:webrtc" none =
      ([Event.run "gn gen out --filters=//:webrtc" none], Except.error (Halt.exit 7)) :=
  (command_failure_fail_fast (fun _ => (7 : Int)) "gn gen out --filters=//:webrtc" none
    "/repo" ⟨fun _ => false, fun _ => none⟩ ⟨"win", "x64", "release"⟩ []
    (Halt.exit 7) 7).1 (by decide)

/-! ## Prompt behaviour -/

theorem no_prompt_build_variant (env : String → Int) (root : String) (fs : FS)
    (tri : BuildTriple) (m : String) :
    Event.prompt m ∉ (Build.build_variant env root fs tri).1 := by
  unfold Build.build_variant
  by_cases h3 : env ("gn gen " ++ outDirRel tri ++ " --filters=//:webrtc") = 0 <;>
    by_cases hd : fs.dirs (outDir root tri) <;>
      simp [run_command, h3, hd]

theorem no_prompt_buildAll (env : String → Int) (root : String) (fs : FS)
    (l : List BuildTriple) (m : String) :
    Event.prompt m ∉ (Build.buildAll env root fs l).1 := by
  induction l generalizing fs with
  | nil => simp [Build.buildAll]
  | cons tri rest ih =>
    unfold Build.buildAll
    cases hr : (Build.build_variant env root fs tri).2 with
    | error h =>
      simp only [hr]
      exact no_prompt_build_variant env root fs tri m
    | ok u =>
      simp only [hr, List.mem_append, not_or]
      exact ⟨fun hmem => no_prompt_build_variant env root fs tri m hmem,
        fun hmem => ih (applyEvents fs (Build.build_variant env root fs tri).1) hmem⟩

theorem no_prompt_build (env : String → Int) (root : String) (fs : FS)
    (l : List BuildTriple) (m : String) :
    Event.prompt m ∉ (Build.build env root fs l).1 := by
  unfold Build.build
  cases hdir : fs.dirs (webrtcDir root) with
  | false =>
    rw [show Build.checkoutPhase env root false = Build.checkout env root from rfl,
      checkout_eq]
    simp
  | true =>
    rw [show Build.checkoutPhase env root true =
      ([Event.print (reuseMsg root)], Except.ok ()) from rfl]
    simp only [List.mem_append, not_or]
    refine ⟨⟨by simp, by simp⟩, ?_⟩
    exact no_prompt_buildAll env root _ l m

theorem init_prompt_facts (targets cpus configs : List String) (input : String)
    (h2 : 2 ≤ (partitionTriples (crossTriples targets cpus configs)).1.length) :
    (∃ m, Event.prompt m ∈ (Build.init targets cpus configs false input).1) ∧
    (pyLower input = "n" →
      (Build.init targets cpus configs false input).2 = Except.error (Halt.exit 0)) ∧
    (¬ pyLower input = "n" →
      (Build.init targets cpus configs false input).2 =
        Except.ok (partitionTriples (crossTriples targets cpus configs)).1) := by
  unfold Build.init
  have hg : decide
      (2 ≤ (partitionTriples (crossTriples targets cpus configs)).1.length) = true :=
    decide_eq_true h2
  simp only [Bool.not_false, Bool.true_and, hg, if_true]
  by_cases hn : pyLower input = "n"
  · have hb : (pyLower input == "n") = true := beq_iff_eq.mpr hn
    simp only [hb, if_true]
    refine ⟨⟨"Start building " ++
      toString (partitionTriples (crossTriples targets cpus configs)).1.length ++
      " variants (this may take some time)? [Y/n] ", by simp⟩,
      fun _ => trivial, fun hc => absurd hn hc⟩
  · have hb : (pyLower input == "n") = false := by
      simp [hn]
    simp only [hb, Bool.false_eq_true, if_false]
    exact ⟨⟨"Start building " ++
      toString (partitionTriples (crossTriples targets cpus configs)).1.length ++
      " variants (this may take some time)? [Y/n] ", by simp⟩,
      fun hc => absurd hc hn, fun _ => trivial⟩

theorem init_nonblocking (targets cpus configs : List String) (quiet : Bool) (input : String)
    (hg : (!quiet &&
      decide (2 ≤ (partitionTriples (crossTriples targets cpus configs)).1.length)) = false) :
    (∀ m, Event.prompt m ∉ (Build.init targets cpus configs quiet input).1) ∧
    (Build.init targets cpus configs quiet input).2 =
      Except.ok (partitionTriples (crossTriples targets cpus configs)).1 := by
  unfold Build.init
  simp only [hg, if_false, Bool.false_eq_true]
  constructor
  · intro m
    simp [List.mem_append, List.mem_map]
  · trivial

/-- C8: when at least two variants are accepted and the quiet flag is not
set, `Build.__init__` blocks on the confirmation prompt before any build
step (the prompt event is emitted during construction, before `build()`
runs), and a negative answer terminates the run with `sys.exit(0)` with no
build-phase events at all; with the quiet flag set, the whole run emits no
prompt event regardless of how many variants were accepted. -/
theorem confirmation_prompt_blocking (targets cpus configs : List String) (input : String)
    (env : String → Int) (root : String) (fs : FS) :
    (2 ≤ (partitionTriples (crossTriples targets cpus configs)).1.length →
      (∃ m, Event.prompt m ∈ (Build.init targets cpus configs false input).1) ∧
      (pyLower input = "n" →
        buildRun targets cpus configs false input env root fs =
          ((Build.init targets cpus configs false input).1, Except.error (Halt.exit 0)))) ∧
    (∀ m, Event.prompt m ∉ (buildRun targets cpus configs true input env root fs).1) := by
  constructor
  · intro h2
    obtain ⟨hex, hdec, -⟩ := init_prompt_facts targets cpus configs input h2
    refine ⟨hex, fun hn => ?_⟩
    unfold buildRun
    simp only [hdec hn]
  · intro m
    unfold buildRun
    have hg : (!true &&
        decide (2 ≤ (partitionTriples (crossTriples targets cpus configs)).1.length)) =
        false := by simp
    obtain ⟨hnp, hok⟩ := init_nonblocking targets cpus configs true input hg
    simp only [hok, List.mem_append, not_or]
    exact ⟨hnp m, no_prompt_build env root _ _ m⟩

/-- Witness for C8 at a concrete input: two accepted variants, quiet not
set, answer `n`. -/
theorem confirmation_prompt_blocking_witness :
    (∃ m, Event.prompt m ∈ (Build.init ["win"] ["x86", "x64"] ["release"] false "n").1) ∧
    buildRun ["win"] ["x86", "x64"] ["release"] false "n" (fun _ => 0) "/repo"
        ⟨fun _ => false, fun _ => none⟩ =
      ((Build.init ["win"] ["x86", "x64"] ["release"] false "n").1,
        Except.error (Halt.exit 0)) := by
  have h := confirmation_prompt_blocking ["win"] ["x86", "x64"] ["release"] "n"
    (fun _ => 0) "/repo" ⟨fun _ => false, fun _ => none⟩
  have h2 : 2 ≤ (partitionTriples (crossTriples ["win"] ["x86", "x64"] ["release"])).1.length := by
    decide
  exact ⟨(h.1 h2).1, (h.1 h2).2 (by decide)⟩

/-- C10: at the confirmation prompt only an answer whose lowercased form is
exactly `n` aborts (`sys.exit(0)`); every other input — the empty string,
`no`, arbitrary text — proceeds and `Build.__init__` returns the accepted
variants; and with fewer than two accepted variants no prompt event is ever
emitted even when the quiet flag is not set. -/
theorem prompt_abort_only_n (targets cpus configs : List String) (input : String) :
    (¬ pyLower input = "n" →
      (Build.init targets cpus configs false input).2 =
        Except.ok (partitionTriples (crossTriples targets cpus configs)).1) ∧
    (pyLower input = "n" →
      2 ≤ (partitionTriples (crossTriples targets cpus configs)).1.length →
      (Build.init targets cpus configs false input).2 = Except.error (Halt.exit 0)) ∧
    ((partitionTriples (crossTriples targets cpus configs)).1.length < 2 →
      (∀ m, Event.prompt m ∉ (Build.init targets cpus configs false input).1) ∧
      (Build.init targets cpus configs false input).2 =
        Except.ok (partitionTriples (crossTriples targets cpus configs)).1) := by
  refine ⟨?_, ?_, ?_⟩
  · intro hn
    by_cases h2 : 2 ≤ (partitionTriples (crossTriples targets cpus configs)).1.length
    · exact (init_prompt_facts targets cpus configs input h2).2.2 hn
    · exact (init_nonblocking targets cpus configs false input (by simp [h2])).2
  · intro hn h2
    exact (init_prompt_facts targets cpus configs input h2).2.1 hn
  · intro hlt
    exact init_nonblocking targets cpus configs false input (by simp [Nat.not_le.mpr hlt])

/-- Witness for C10 at concrete inputs: the answer `no` proceeds with two
accepted variants, and a single-variant run never prompts. -/
theorem prompt_abort_only_n_witness :
    (Build.init ["win"] ["x86", "x64"] ["release"] false "no").2 =
      Except.ok (partitionTriples (crossTriples ["win"] ["x86", "x64"] ["release"])).1 ∧
    (∀ m, Event.prompt m ∉ (Build.init ["win"] ["x86"] ["release"] false "anything").1) := by
  refine ⟨(prompt_abort_only_n ["win"] ["x86", "x64"] ["release"] "no").1 (by decide), ?_⟩
  exact ((prompt_abort_only_n ["win"] ["x86"] ["release"] "anything").2.2 (by decide)).1

/-! ## args.gn generation -/

/-- C9: building any variant writes the `args.gn` build-options file
unconditionally — the write event is emitted for every prior filesystem
state, and afterwards the file holds exactly the generated content,
overwriting whatever was there — and the written key set is exactly the
fixed twelve keys with the stated values: the debug flag reflecting the
variant's config, `use_lld` and `is_clang` false, the three test/tooling
flags false, the two platform-codec flags true, `enable_libaom` true,
`rtc_enable_protobuf` false, and the quoted target platform and cpu. -/
theorem args_gn_contents (env : String → Int) (root : String) (fs : FS) (tri : BuildTriple) :
    Event.writeFile (outDir root tri ++ "/args.gn") (argsGnContent tri) ∈
      (Build.build_variant env root fs tri).1 ∧
    (applyEvents fs (Build.build_variant env root fs tri).1).files
        (outDir root tri ++ "/args.gn") = some (argsGnContent tri) ∧
    (build_options tri).map Prod.fst =
      ["is_debug", "use_lld", "is_clang", "rtc_include_tests", "rtc_build_examples",
       "rtc_build_tools", "rtc_win_video_capture_winrt", "rtc_win_use_mf_h264",
       "enable_libaom", "rtc_enable_protobuf", "target_os", "target_cpu"] ∧
    (build_options tri).lookup "is_debug" =
      some (if tri.config = "debug" then "true" else "false") ∧
    (build_options tri).lookup "use_lld" = some "false" ∧
    (build_options tri).lookup "is_clang" = some "false" ∧
    (build_options tri).lookup "rtc_include_tests" = some "false" ∧
    (build_options tri).lookup "rtc_build_examples" = some "false" ∧
    (build_options tri).lookup "rtc_build_tools" = some "false" ∧
    (build_options tri).lookup "rtc_win_video_capture_winrt" = some "true" ∧
    (build_options tri).lookup "rtc_win_use_mf_h264" = some "true" ∧
    (build_options tri).lookup "enable_libaom" = some "true" ∧
    (build_options tri).lookup "rtc_enable_protobuf" = some "false" ∧
    (build_options tri).lookup "target_os" = some ("\"" ++ tri.target ++ "\"") ∧
    (build_options tri).lookup "target_cpu" = some ("\"" ++ tri.cpu ++ "\"") := by
  refine ⟨?_, ?_, rfl, ?_, rfl, rfl, rfl, rfl, rfl, rfl, rfl, rfl, rfl, rfl, rfl⟩
  · unfold Build.build_variant
    by_cases h3 : env ("gn gen " ++ outDirRel tri ++ " --filters=//:webrtc") = 0 <;>
      by_cases hd : fs.dirs (outDir root tri) <;>
        simp [run_command, h3, hd]
  · unfold Build.build_variant
    by_cases h3 : env ("gn gen " ++ outDirRel tri ++ " --filters=//:webrtc") = 0 <;>
      by_cases hd : fs.dirs (outDir root tri) <;>
        simp [run_command, h3, hd, applyEvents, applyEvent]
  · by_cases h : tri.config = "debug" <;>
      simp [build_options, BuildTriple.is_debug, h, List.lookup]

/-! ## Empty-variant runs -/

/-- Events that only write to the console and touch neither the filesystem
nor any external process. -/
def displayEvent : Event → Bool
  | Event.print _ => true
  | Event.printWarning _ => true
  | Event.printStep _ => true
  | Event.prompt _ => true
  | _ => false

theorem applyEvent_display (fs : FS) (e : Event) (h : displayEvent e = true) :
    applyEvent fs e = fs := by
  cases e <;> simp [displayEvent] at h ⊢ <;> rfl

theorem applyEvents_display (fs : FS) (evs : List Event)
    (h : ∀ e ∈ evs, displayEvent e = true) : applyEvents fs evs = fs := by
  induction evs with
  | nil => rfl
  | cons e rest ih =>
    rw [show applyEvents fs (e :: rest) = applyEvents (applyEvent fs e) rest from rfl,
      applyEvent_display fs e (h e (by simp))]
    exact ih fun x hx => h x (by simp [hx])

theorem init_display (targets cpus configs : List String) (quiet : Bool) (input : String) :
    ∀ e ∈ (Build.init targets cpus configs quiet input).1, displayEvent e = true := by
  intro e he
  cases e
  case print s => rfl
  case printWarning s => rfl
  case printStep s => rfl
  case prompt s => rfl
  all_goals
    exfalso
    revert he
    simp only [Build.init]
    split <;> (try split) <;> simp

theorem init_reports (targets cpus configs : List String) (quiet : Bool) (input : String) :
    Event.print ("Building " ++
        toString (partitionTriples (crossTriples targets cpus configs)).1.length ++
        " variants:") ∈ (Build.init targets cpus configs quiet input).1 := by
  simp only [Build.init]
  split <;> (try split) <;> simp

/-- C4 (amended): a run whose accepted variant set is empty reports zero
variants, performs no external command (in particular no fetch, sync or
patch) and no build (no variant step, no args.gn write); however the
checkout step is not skipped: when the checkout directory does not exist it
is still invoked, creates the checkout directory, and then aborts on the
undefined name `target`, so the run ends in the `NameError` usage-error path
instead of terminating cleanly without checkout. -/
theorem empty_variants_no_build (targets cpus configs : List String) (quiet : Bool)
    (input : String) (env : String → Int) (root : String) (fs : FS)
    (hempty : (partitionTriples (crossTriples targets cpus configs)).1 = []) :
    Event.print "Building 0 variants:" ∈
      (buildRun targets cpus configs quiet input env root fs).1 ∧
    (∀ cmd cwd, Event.run cmd cwd ∉
      (buildRun targets cpus configs quiet input env root fs).1) ∧
    (∀ p c, Event.writeFile p c ∉
      (buildRun targets cpus configs quiet input env root fs).1) ∧
    (fs.dirs (webrtcDir root) = false →
      Event.makedirs (webrtcDir root) ∈
        (buildRun targets cpus configs quiet input env root fs).1 ∧
      (buildRun targets cpus configs quiet input env root fs).2 =
        Except.error (Halt.nameError "target")) := by
  have hg : (!quiet &&
      decide (2 ≤ (partitionTriples (crossTriples targets cpus configs)).1.length)) =
      false := by
    simp [hempty]
  obtain ⟨-, hok⟩ := init_nonblocking targets cpus configs quiet input hg
  have hfs : applyEvents fs (Build.init targets cpus configs quiet input).1 = fs :=
    applyEvents_display _ _ (init_display targets cpus configs quiet input)
  have hmem := init_reports targets cpus configs quiet input
  rw [hempty] at hmem
  have hstr : ("Building " ++ toString (List.length ([] : List BuildTriple)) ++
      " variants:") = "Building 0 variants:" := by decide
  rw [hstr] at hmem
  have hdisp := init_display targets cpus configs quiet input
  rw [hempty] at hok
  unfold buildRun
  simp only [hok, hfs]
  by_cases hdir : fs.dirs (webrtcDir root) = true
  · have hb : Build.build env root fs [] =
        ([Event.setEnv "DEPOT_TOOLS_WIN_TOOLCHAIN" "0", Event.setEnv "GYP_MSVS_VERSION" "2019",
          Event.print (reuseMsg root)], Except.ok ()) := by
      unfold Build.build
      rw [hdir]
      rfl
    rw [hb]
    refine ⟨List.mem_append_left _ hmem, ?_, ?_, fun hfalse => absurd hdir (by simp [hfalse])⟩
    · intro cmd cwd hmemr
      rcases List.mem_append.mp hmemr with h | h
      · have := hdisp _ h
        simp [displayEvent] at this
      · simp at h
    · intro p c hmemw
      rcases List.mem_append.mp hmemw with h | h
      · have := hdisp _ h
        simp [displayEvent] at this
      · simp at h
  · have hdir' : fs.dirs (webrtcDir root) = false := by
      simpa using hdir
    have hb : Build.build env root fs [] =
        ([Event.setEnv "DEPOT_TOOLS_WIN_TOOLCHAIN" "0", Event.setEnv "GYP_MSVS_VERSION" "2019",
          Event.makedirs (webrtcDir root)], Except.error (Halt.nameError "target")) := by
      unfold Build.build
      rw [hdir']
      rfl
    rw [hb]
    refine ⟨List.mem_append_left _ hmem, ?_, ?_, fun _ => ⟨List.mem_append_right _ (by simp), rfl⟩⟩
    · intro cmd cwd hmemr
      rcases List.mem_append.mp hmemr with h | h
      · have := hdisp _ h
        simp [displayEvent] at this
      · simp at h
    · intro p c hmemw
      rcases List.mem_append.mp hmemw with h | h
      · have := hdisp _ h
        simp [displayEvent] at this
      · simp at h

/-- Witness for C4 at a concrete input: android x86 release (all rejected),
quiet, fresh filesystem. -/
theorem empty_variants_no_build_witness :
    Event.print "Building 0 variants:" ∈
      (buildRun ["android"] ["x86"] ["release"] true "" (fun _ => 0) "/repo"
        ⟨fun _ => false, fun _ => none⟩).1 ∧
    Event.makedirs (webrtcDir "/repo") ∈
      (buildRun ["android"] ["x86"] ["release"] true "" (fun _ => 0) "/repo"
        ⟨fun _ => false, fun _ => none⟩).1 ∧
    (buildRun ["android"] ["x86"] ["release"] true "" (fun _ => 0) "/repo"
        ⟨fun _ => false, fun _ => none⟩).2 = Except.error (Halt.nameError "target") := by
  have h := empty_variants_no_build ["android"] ["x86"] ["release"] true "" (fun _ => 0)
    "/repo" ⟨fun _ => false, fun _ => none⟩ rfl
  exact ⟨h.1, (h.2.2.2 rfl).1, (h.2.2.2 rfl).2⟩

/-- C4 (counterexample to the claim as stated): a run requesting only the
rejected variant android/x86/release has an empty accepted set, yet on a
filesystem without an existing checkout the run does invoke the checkout
step — the creation of the checkout directory appears in its event trace —
rather than terminating without it. -/
theorem empty_variants_checkout_invoked :
    (partitionTriples (crossTriples ["android"] ["x86"] ["release"])).1 = [] ∧
    Event.makedirs "/repo/external/libwebrtc" ∈
      (buildRun ["android"] ["x86"] ["release"] true "" (fun _ => 0) "/repo"
        ⟨fun _ => false, fun _ => none⟩).1 := by
  refine ⟨rfl, ?_⟩
  decide
